import Mathlib

/-!
Shallow embedding of smtLayer/vmUtils.py (Feilong): the hypervisor
command-execution and disk-provisioning layer.  Subprocess invocations are
modelled as explicit outcome inputs and the functions below mirror the
control flow of the source.  The message catalog (smtLayer/msgs.py) is not
part of the verified source tree; its records and templates are modelled
from the specification and marked as such.
-/

namespace VMUtils

/-! ## Python-style string primitives

All parsing is done by structural (fuel) recursion over character lists so
every definition reduces inside the kernel. -/

/-- str.split(sep) for a non-empty separator: split on every occurrence,
keeping empty pieces.  Fuel recursion; one unit of fuel per character
guarantees termination. -/
def chSplit (sep : List Char) : Nat → List Char → List Char → List (List Char)
  | 0, s, acc => [acc.reverse ++ s]
  | _ + 1, [], acc => [acc.reverse]
  | fuel + 1, c :: rest, acc =>
    if sep.isPrefixOf (c :: rest) then
      acc.reverse :: chSplit sep fuel (List.drop (sep.length - 1) rest) []
    else
      chSplit sep fuel rest (c :: acc)

/-- str.split(sep): Python raises on an empty separator; this module never
calls it with one, so that case returns the string unsplit. -/
def pySplitOn (s sep : String) : List String :=
  if sep.data.isEmpty then [s]
  else (chSplit sep.data (s.data.length + 1) s.data []).map (fun l => String.mk l)

/-- str.split(sep, 1): split on the first occurrence only. -/
def chSplitOnce (sep : List Char) : Nat → List Char → List Char → List (List Char)
  | 0, s, acc => [acc.reverse ++ s]
  | _ + 1, [], acc => [acc.reverse]
  | fuel + 1, c :: rest, acc =>
    if sep.isPrefixOf (c :: rest) then
      [acc.reverse, List.drop (sep.length - 1) rest]
    else
      chSplitOnce sep fuel rest (c :: acc)

/-- str.split(sep, 1) wrapper on strings. -/
def splitOnce (s sep : String) : List String :=
  if sep.data.isEmpty then [s]
  else (chSplitOnce sep.data (s.data.length + 1) s.data []).map (fun l => String.mk l)

/-- str.split() with no argument: split on whitespace runs, dropping empty
fields. -/
def chFields : List Char → List Char → List (List Char)
  | [], acc => if acc.isEmpty then [] else [acc.reverse]
  | c :: rest, acc =>
    if c.isWhitespace then
      if acc.isEmpty then chFields rest [] else acc.reverse :: chFields rest []
    else
      chFields rest (c :: acc)

/-- str.split() wrapper on strings. -/
def pyWsSplit (s : String) : List String :=
  (chFields s.data []).map (fun l => String.mk l)

/-- str.lstrip(): drop leading whitespace. -/
def chTrimLeft : List Char → List Char
  | [] => []
  | c :: rest => if c.isWhitespace then chTrimLeft rest else c :: rest

/-- str.lstrip() wrapper on strings. -/
def pyLStrip (s : String) : String := String.mk (chTrimLeft s.data)

/-- Digits of a decimal integer literal; `none` when a non-digit appears or
no digit was seen. -/
def chDigits : List Char → Option Nat → Option Nat
  | [], acc => acc
  | c :: rest, acc =>
    if c.isDigit then
      chDigits rest (some ((acc.getD 0) * 10 + (c.toNat - 48)))
    else none

/-- Models Python int(str): optional surrounding whitespace, optional single
sign, at least one decimal digit.  (Python also accepts underscore grouping,
which never occurs in the headers this layer parses.) -/
def pyToInt (s : String) : Option Int :=
  let t := (chTrimLeft (chTrimLeft s.data.reverse).reverse)
  match t with
  | '-' :: rest => (chDigits rest none).map (fun n => -(n : Int))
  | '+' :: rest => (chDigits rest none).map (fun n => (n : Int))
  | _ => (chDigits t none).map (fun n => (n : Int))

/-- " ".join(l) style joining. -/
def strJoin (sep : String) : List String → String
  | [] => ""
  | [x] => x
  | x :: rest => x ++ sep ++ strJoin sep rest

/-- Python `needle in hay` substring membership. -/
def strContainsSub (hay needle : String) : Bool :=
  needle.data.isEmpty || decide (1 < (pySplitOn hay needle).length)

/-- Models re.search(pre ++ "(.+?)" ++ suf, out) for the literal patterns
used in this module: the text after the first occurrence of `pre` up to the
next occurrence of `suf`, required nonempty and free of newlines (a dot in
these patterns does not match a newline).  The regex engine would retry at
later occurrences of `pre` when the first fails; the outputs this layer
handles never depend on that. -/
def reGroupBetween (out pre suf : String) : Option String :=
  match splitOnce out pre with
  | [_, tail] =>
    match splitOnce tail suf with
    | [seg, _] =>
      if seg.data.isEmpty || seg.data.contains '\n' then none else some seg
    | _ => none
  | _ => none

/-! ## The uniform result record -/

/-- The dictionary shape every operation in vmUtils returns.  Keys that a
given code path never sets are modelled as 0 / "". -/
structure ResultRecord where
  overallRC : Int
  rc : Int
  rs : Int
  errno : Int
  response : String
  deriving DecidableEq

/-! ## Message catalog (smtLayer/msgs.py), modelled from the spec -/

/-- Modelled from the spec: msgs.msg['0501'][0], the fixed operation-timed-out
outcome for a subprocess-level timeout (the spec pins rc=64, rs=408 and the
timeout domain overallRC=3). -/
def msg0501rec : ResultRecord := ⟨3, 64, 408, 0, ""⟩

/-- Modelled from the spec: msgs.msg['0415'][0], the record for a failed
local privileged command; callers overwrite rs with the process exit status.
The spec pins only that the record is a non-zero failure outcome. -/
def msg0415rec : ResultRecord := ⟨3, 415, 0, 0, ""⟩

/-- Modelled from the spec: msgs.msg['0416'][0], malformed link output (too
few tokens after the Success marker). -/
def msg0416rec : ResultRecord := ⟨4, 4, 416, 0, ""⟩

/-- Modelled from the spec: msgs.msg['0417'][0], malformed link output
(Success marker missing). -/
def msg0417rec : ResultRecord := ⟨4, 4, 417, 0, ""⟩

/-- Modelled from the spec: msgs.msg['0421'][0], the generic internal-error
outcome for unexpected local exceptions. -/
def msg0421rec : ResultRecord := ⟨4, 4, 421, 0, ""⟩

/-- Modelled from the spec: msgs.msg['0413'][0], the fixed timeout outcome
returned when the OS-state poll budget is exhausted. -/
def msg0413rec : ResultRecord := ⟨4, 4, 413, 0, ""⟩

/-- Modelled from the spec: the message template for id 0501 (timeout in the
remote executor). -/
def render0501 (strCmd ename desc : String) : String :=
  "ULTVMU0501E Timeout while running " ++ strCmd ++ " exception " ++
    ename ++ ": " ++ desc

/-- Modelled from the spec: the message template for id 0320 (process-level
timeout or permission failure in the remote executor). -/
def render0320 (userid strCmd : String) (rc rs : Int) (output : String) : String :=
  "ULTVMU0320E On " ++ userid ++ " command " ++ strCmd ++ " timed out, rc: " ++
    toString rc ++ " rs: " ++ toString rs ++ " out: " ++ output

/-- Modelled from the spec: the message template for id 0421 (generic
internal error naming the failing command). -/
def render0421 (strCmd ename desc : String) : String :=
  "ULTVMU0421E Command " ++ strCmd ++ " hit exception " ++ ename ++ ": " ++ desc

/-- Modelled from the spec: the message template for id 0311 (return code in
the transport response is not an integer). -/
def render0311 (userid strCmd : String) (rc : Int) (grp output : String) : String :=
  "ULTVMU0311E On " ++ userid ++ " command " ++ strCmd ++ " rc " ++
    toString rc ++ " unparseable return code " ++ grp ++ " out: " ++ output

/-- Modelled from the spec: the message template for id 0312 (reason code in
the transport response is not an integer). -/
def render0312 (userid strCmd : String) (rc : Int) (grp output : String) : String :=
  "ULTVMU0312E On " ++ userid ++ " command " ++ strCmd ++ " rc " ++
    toString rc ++ " unparseable reason code " ++ grp ++ " out: " ++ output

/-- Modelled from the spec: the per-category message templates 0313..0319 of
the remote executor (unauthorized, bad parameters, socket error, remote
execution failure, file transport failure, missing server, unrecognized). -/
def renderIUCVClass (msgid userid strCmd : String) (rc rs : Int)
    (output : String) : String :=
  "ULTVMU" ++ msgid ++ "E On " ++ userid ++ " command " ++ strCmd ++
    " failed, rc: " ++ toString rc ++ " rs: " ++ toString rs ++ " out: " ++ output

/-- Modelled from the spec: the message template for id 0413 (OS never
reached the desired state inside the polling budget); it embeds the userid,
the desired state and the total wait budget. -/
def render0413 (userid desired : String) (maxWait : Nat) : String :=
  "ULTVMU0413E Userid " ++ userid ++ " did not reach state " ++ desired ++
    " within " ++ toString maxWait ++ " seconds"

/-! ## execCmdThruIUCV (remote executor) -/

/-- The ways the iucvclnt subprocess call can end, as seen by the except
chain of execCmdThruIUCV: clean output, CalledProcessError,
subprocess.TimeoutExpired, PermissionError, or any other exception. -/
inductive ProcOutcome where
  | ok (out : String)
  | cpe (returncode : Int) (output : String)
  | timeoutExp (desc : String)
  | permErr (desc : String)
  | other (ename desc : String)
  deriving DecidableEq

/-- The CalledProcessError branch of execCmdThruIUCV: recover rc/rs from the
two ordered text patterns, then classify rc into one of seven fixed message
categories.  overallRC is always 2 here and rc defaults to the process exit
status when the pattern is absent. -/
def parseIUCVErr (userid strCmd : String) (returncode : Int)
    (output : String) : ResultRecord :=
  let rcPair : Int × Option String :=
    match reGroupBetween output "Return code " "," with
    | some g =>
      match pyToInt g with
      | some v => (v, none)
      | none => (returncode, some (render0311 userid strCmd returncode g output))
    | none => (returncode, none)
  let rc1 := rcPair.1
  let rsPair : Int × Option String :=
    match rcPair.2 with
    | some m => (0, some m)
    | none =>
      match reGroupBetween output "Reason code " "." with
      | some g =>
        match pyToInt g with
        | some v => (v, none)
        | none => (0, some (render0312 userid strCmd rc1 g output))
      | none => (0, none)
  let rs1 := rsPair.1
  let msg :=
    match rsPair.2 with
    | some m => m
    | none =>
      if rc1 = 1 then renderIUCVClass "0313" userid strCmd rc1 rs1 output
      else if rc1 = 2 then renderIUCVClass "0314" userid strCmd rc1 rs1 output
      else if rc1 = 4 then renderIUCVClass "0315" userid strCmd rc1 rs1 output
      else if rc1 = 8 then renderIUCVClass "0316" userid strCmd rc1 rs1 output
      else if rc1 = 16 then renderIUCVClass "0317" userid strCmd rc1 rs1 output
      else if rc1 = 32 then renderIUCVClass "0318" userid strCmd rc1 rs1 output
      else renderIUCVClass "0319" userid strCmd rc1 rs1 output
  ⟨2, rc1, rs1, 0, msg⟩

/-- execCmdThruIUCV: send a command to a virtual machine through the IUCV
transport.  In the source the except clauses are tried in order, so a
TimeoutExpired is always taken by the first clause (message 0501) and only a
PermissionError reaches the joint (TimeoutExpired, PermissionError) clause,
which sets overallRC=3, rc=64, rs=408 on the initial record. -/
def execCmdThruIUCV (userid strCmd : String) (outcome : ProcOutcome) :
    ResultRecord :=
  match outcome with
  | .ok out => ⟨0, 0, 0, 0, out⟩
  | .timeoutExp d =>
    { msg0501rec with response := render0501 strCmd "TimeoutExpired" d }
  | .cpe returncode output => parseIUCVErr userid strCmd returncode output
  | .permErr d => ⟨3, 64, 408, 0, render0320 userid strCmd 64 408 d⟩
  | .other en d => { msg0421rec with response := render0421 strCmd en d }

/-! ## disableEnableDisk -/

/-- The chccwdev command line built by disableEnableDisk. -/
def chccwdevCmd (option vaddr : String) : String :=
  "sudo /sbin/chccwdev " ++ option ++ " " ++ vaddr ++ " 2>&1"

/-- The retry/backoff schedule of disableEnableDisk:
[0.1, 0.4, 1, 1.5, 3, 7, 15, 32, 30, 30, 60, 60, 60, 60, 60] seconds
(fractions written with mkRat so every entry reduces in the kernel). -/
def dedSchedule : List ℚ :=
  [mkRat 1 10, mkRat 2 5, 1, mkRat 3 2, 3, 7, 15, 32, 30, 30,
   60, 60, 60, 60, 60]

/-- The retry loop of disableEnableDisk over its schedule: stop on success,
convert the (2, 8, 1) outcome to success for option -d, otherwise sleep and
retry; when the schedule runs out the last observed result is returned.
`probe n` is the subprocess outcome of the (n+1)-th iucvclnt invocation; the
returned Nat is the number of invocations performed. -/
def dedLoop (userid vaddr option : String) (probe : Nat → ProcOutcome)
    (last : ResultRecord) : List ℚ → Nat → ResultRecord × Nat
  | [], n => (last, n)
  | _ :: rest, n =>
    if (execCmdThruIUCV userid (chccwdevCmd option vaddr)
        (probe n)).overallRC = 0 then
      (execCmdThruIUCV userid (chccwdevCmd option vaddr) (probe n), n + 1)
    else if (execCmdThruIUCV userid (chccwdevCmd option vaddr)
          (probe n)).overallRC = 2 ∧
        (execCmdThruIUCV userid (chccwdevCmd option vaddr) (probe n)).rc = 8 ∧
        (execCmdThruIUCV userid (chccwdevCmd option vaddr) (probe n)).rs = 1 ∧
        option = "-d" then
      (⟨0, 0, 0, 0, ""⟩, n + 1)
    else
      dedLoop userid vaddr option probe
        (execCmdThruIUCV userid (chccwdevCmd option vaddr) (probe n))
        rest (n + 1)

/-- disableEnableDisk: enable (-e) or disable (-d) a disk, waiting out
transient failures on a fixed schedule. -/
def disableEnableDisk (userid vaddr option : String)
    (probe : Nat → ProcOutcome) : ResultRecord × Nat :=
  dedLoop userid vaddr option probe ⟨0, 0, 0, 0, ""⟩ dedSchedule 0

/-! ## invokeSMCLI (management-API invoker) -/

/-- Default long-call socket timeout (seconds). -/
def DEFAULT_SMAPI_SOCKET_LONG_CALL_TIMEOUT_SECONDS : Nat := 900

/-- Default general socket timeout (seconds). -/
def DEFAULT_SMAPI_SOCKET_TIMEOUT_SECONDS : Nat := 240

/-- The result dictionary shape of invokeSMCLI, which also carries the
strError key. -/
structure SmcliRecord where
  overallRC : Int
  rc : Int
  rs : Int
  errno : Int
  response : String
  strError : String
  deriving DecidableEq

/-- Modelled from the spec: msgs.msg['0301'][0], the malformed-response
outcome when the header has fewer than three tokens; internal errors of the
management-API invoker carry overallRC 25. -/
def msg0301rec : SmcliRecord := ⟨25, 301, 0, 0, "", ""⟩

/-- Modelled from the spec: msgs.msg['0302'][0], the internal-error outcome
that replaces the results when token 1 of the header is not an acceptable
overall return code; the spec forces its overallRC to 25. -/
def msg0302rec : SmcliRecord := ⟨25, 302, 0, 0, "", ""⟩

/-- Modelled from the spec: msgs.msg['0303'][0], the malformed-response
outcome when token 2 of the header is not an integer (overallRC 25). -/
def msg0303rec : SmcliRecord := ⟨25, 303, 0, 0, "", ""⟩

/-- Modelled from the spec: msgs.msg['0304'][0], the malformed-response
outcome when token 3 of the header is not an integer (overallRC 25). -/
def msg0304rec : SmcliRecord := ⟨25, 304, 0, 0, "", ""⟩

/-- Modelled from the spec: msgs.msg['0305'][0], the generic internal-error
outcome of the management-API invoker (overallRC 25). -/
def msg0305rec : SmcliRecord := ⟨25, 305, 0, 0, "", ""⟩

/-- Modelled from the spec: the message template for id 0300 (decoded
management-API failure embedding all codes, the command and the payload). -/
def render0300 (api : String) (orc rc rs errno : Int)
    (strCmd payload : String) : String :=
  "ULTVMU0300E SMAPI API failed: " ++ api ++ ", overall rc: " ++
    toString orc ++ ", rc: " ++ toString rc ++ ", rs: " ++ toString rs ++
    ", errno: " ++ toString errno ++ ", cmd: " ++ strCmd ++ ", out: " ++ payload

/-- Modelled from the spec: the message template for id 0301 (header held too
few tokens). -/
def render0301 (api strCmd hd0 hd1 : String) : String :=
  "ULTVMU0301E SMAPI API failed: " ++ api ++ ", cmd: " ++ strCmd ++
    ", header: " ++ hd0 ++ ", detail: " ++ hd1

/-- Modelled from the spec: the message template for id 0302 (token 1 is not
an acceptable overall return code). -/
def render0302 (api tok strCmd hd0 hd1 : String) : String :=
  "ULTVMU0302E SMAPI API failed: " ++ api ++ ", bad overall rc: " ++ tok ++
    ", cmd: " ++ strCmd ++ ", header: " ++ hd0 ++ ", detail: " ++ hd1

/-- Modelled from the spec: the message template for id 0303 (token 2 is not
an integer). -/
def render0303 (api tok strCmd hd0 hd1 : String) : String :=
  "ULTVMU0303E SMAPI API failed: " ++ api ++ ", bad rc: " ++ tok ++
    ", cmd: " ++ strCmd ++ ", header: " ++ hd0 ++ ", detail: " ++ hd1

/-- Modelled from the spec: the message template for id 0304 (token 3 is not
an integer; the source interpolates token 2 into it). -/
def render0304 (api tok strCmd hd0 hd1 : String) : String :=
  "ULTVMU0304E SMAPI API failed: " ++ api ++ ", bad rs or errno near rc: " ++
    tok ++ ", cmd: " ++ strCmd ++ ", header: " ++ hd0 ++ ", detail: " ++ hd1

/-- Modelled from the spec: the message template for id 0305 (generic
internal error naming the failing command). -/
def render0305 (strCmd desc : String) : String :=
  "ULTVMU0305E Command failed: " ++ strCmd ++ ", exception: " ++ desc

/-- The ways the smcli subprocess call can end: clean output,
CalledProcessError, or any other exception. -/
inductive SmcliOutcome where
  | ok (out : String)
  | cpe (returncode : Int) (output : String)
  | exc (ename desc : String)
  deriving DecidableEq

/-- The header-validation half of invokeSMCLI's CalledProcessError branch:
require at least three tokens, then decode overallRC/rc/rs/errno or replace
the results by a catalog record; when the header parsed cleanly the source
reads smcliResp[1] (the payload argument) to render message 0300 — when the
output held no newline that read raises an IndexError inside the except
handler, which no sibling handler catches, so it escapes invokeSMCLI
(.error). -/
def decodeHeader (api strCmd : String) (codes : List String)
    (hd0 hd1 : String) (payload : Option String) : Except Unit SmcliRecord :=
  if codes.length < 3 then
    .ok { msg0301rec with
            response := render0301 api strCmd hd0 hd1
            strError := pyLStrip hd1 }
  else
    let c0 := codes.getD 0 ""
    let c1 := codes.getD 1 ""
    let c2 := codes.getD 2 ""
    let t0 := pyToInt c0
    let good1 := t0.isSome
    let r2 : SmcliRecord :=
      match t0 with
      | some v =>
        if v = 8 ∨ v = 24 ∨ v = 25 then ⟨v, 0, 0, 0, "", ""⟩
        else { msg0302rec with response := render0302 api c0 strCmd hd0 hd1 }
      | none => { msg0302rec with response := render0302 api c0 strCmd hd0 hd1 }
    let step3 : SmcliRecord × Bool :=
      match pyToInt c1 with
      | some v => ({ r2 with rc := v }, good1)
      | none =>
        ({ msg0303rec with response := render0303 api c1 strCmd hd0 hd1 }, false)
    let r3 := step3.1
    let step4 : SmcliRecord × Bool :=
      match pyToInt c2 with
      | some v =>
        (if r3.overallRC = 8 then { r3 with rs := v }
         else if r3.overallRC = 25 then { r3 with errno := v }
         else r3, step3.2)
      | none =>
        ({ msg0304rec with response := render0304 api c1 strCmd hd0 hd1 }, false)
    let r5 := { step4.1 with strError := pyLStrip hd1 }
    if step4.2 then
      match payload with
      | some pay =>
        .ok { r5 with
                response := render0300 api r5.overallRC r5.rc r5.rs r5.errno
                  strCmd pay }
      | none => .error ()
    else .ok r5

/-- The CalledProcessError branch continued: split the output on the first
newline, the first line on the "(details)" tag (the source appends an empty
detail when the tag is absent, which getD 1 "" mirrors), the leading part
into space-separated tokens, and feed decodeHeader; the payload handed over
is smcliResp[1], absent when the output held no newline. -/
def parseCPE (api strCmd output : String) : Except Unit SmcliRecord :=
  let smcliResp := splitOnce output "\n"
  let line0 := smcliResp.getD 0 ""
  let rcHeader := splitOnce line0 "(details)"
  let hd0 := rcHeader.getD 0 ""
  let hd1 := rcHeader.getD 1 ""
  decodeHeader api strCmd (pySplitOn hd0 " ") hd0 hd1 (smcliResp.get? 1)

/-- The fixed leading argv of the smcli invocation. -/
def smcliBaseCmd (api : String) : List String :=
  ["sudo", "/opt/zthin/bin/smcli", api, "--addRCheader"]

/-- The in-place masking loop of invokeSMCLI: each index in hideInLog is
overwritten with "<hidden>".  In the source this runs on logParms, but
logParms = parms merely aliases the caller's list, so the same list is later
extended with the timeout and executed. -/
def maskParms (parms : List String) (hideInLog : List Nat) : List String :=
  hideInLog.foldl (fun ps i => ps.set i "<hidden>") parms

/-- Timeout selection of invokeSMCLI.  The source tests membership with
`api in SOCKET_LONG_CALL_APIS` where SOCKET_LONG_CALL_APIS = ('VMRELOCATE')
is a plain string, so the test is Python substring membership.  A config
value of 0/None is falsy and falls through to the next default. -/
def resolveTimeout (api : String) (cfgLong cfgGen : Nat) : Nat :=
  if strContainsSub "VMRELOCATE" api then
    if cfgLong ≠ 0 then cfgLong
    else if cfgGen ≠ 0 then cfgGen
    else DEFAULT_SMAPI_SOCKET_LONG_CALL_TIMEOUT_SECONDS
  else
    if cfgGen ≠ 0 then cfgGen
    else DEFAULT_SMAPI_SOCKET_TIMEOUT_SECONDS

/-- Everything invokeSMCLI produces that is visible to a caller or observer:
the argv handed to the subprocess, the parms rendered into the enter log
line, the returned record (or an escaped exception), and the event recorded
on the rolling SMAPI health tracker (none when neither branch was reached). -/
structure SmcliOut where
  argv : List String
  logParms : List String
  result : Except Unit SmcliRecord
  healthEvent : Option Bool

/-- invokeSMCLI: invoke the management API and decode its header.  On a
clean exit the output is split on the first newline and everything after it
is the payload; when the output holds no newline, reading smcliResp[1]
raises an IndexError inside the try block, which the generic except clause
folds into the 0305 internal-error outcome. -/
def invokeSMCLI (rhUserid api : String) (parms : List String)
    (hideInLog : List Nat) (cfgLong cfgGen : Nat)
    (outcome : SmcliOutcome) : SmcliOut :=
  let logParms := if hideInLog.isEmpty then parms else maskParms parms hideInLog
  let parms1 := logParms
  let tmo := resolveTimeout api cfgLong cfgGen
  let fullParms := parms1 ++ ["--timeout", toString tmo]
  let argv := smcliBaseCmd api ++ fullParms
  let strCmd := strJoin " " argv
  match outcome with
  | .ok out =>
    match splitOnce out "\n" with
    | [_, payload] => ⟨argv, logParms, .ok ⟨0, 0, 0, 0, payload, ""⟩, some true⟩
    | _ =>
      ⟨argv, logParms,
        .ok { msg0305rec with response := render0305 strCmd "IndexError" },
        none⟩
  | .cpe _ output => ⟨argv, logParms, parseCPE api strCmd output, some false⟩
  | .exc en d =>
    ⟨argv, logParms,
      .ok { msg0305rec with response := render0305 strCmd (en ++ ": " ++ d) },
      none⟩

/-- Projection of a parse result onto its code tuple
(overallRC, rc, rs, errno); none when the call raised. -/
def exCodes (e : Except Unit SmcliRecord) : Option (Int × Int × Int × Int) :=
  match e with
  | .ok r => some (r.overallRC, r.rc, r.rs, r.errno)
  | .error _ => none

/-- Projection of a parse result onto its overallRC; none when the call
raised. -/
def exOverallRC (e : Except Unit SmcliRecord) : Option Int :=
  match e with
  | .ok r => some r.overallRC
  | .error _ => none

/-! ## installFS (disk-provisioning workflow) -/

/-- The ways a check_output call inside installFS can end, as seen by its
try/except blocks: clean output, CalledProcessError, or any other
exception. -/
inductive CmdResult where
  | ok (out : String)
  | err (returncode : Int) (output : String)
  | exc (ename desc : String)
  deriving DecidableEq

/-- The bounded retry schedule used by the disk-link-acquisition, the
partition-creation and the filesystem-creation steps of installFS:
[0.1, 0.2, 0.3, 0.5, 1, 2, -1] seconds (fractions written with mkRat so
every entry reduces in the kernel); the final -1 is the last-attempt
sentinel that re-raises instead of sleeping. -/
def installFSSchedule : List ℚ :=
  [mkRat 1 10, mkRat 1 5, mkRat 3 10, mkRat 1 2, 1, 2, -1]

/-- The sleep-and-retry loop pattern of installFS (lines 346, 516 and 592 of
the source): run the attempt; on success break with its output; on
CalledProcessError sleep the scheduled delay and retry when it is positive,
re-raise at the sentinel; any other exception escapes the inner handler at
once.  Returns the loop's net outcome, the number of attempts performed and
the delays slept, in order.  (With the sentinel-terminated schedules used
here the empty-schedule fallthrough is unreachable.) -/
def retryRun (attempt : Nat → CmdResult) : List ℚ → Nat → CmdResult × Nat × List ℚ
  | [], _ => (.ok "", 0, [])
  | s :: rest, n =>
    match attempt n with
    | .ok out => (.ok out, 1, [])
    | .exc en d => (.exc en d, 1, [])
    | .err rcode out =>
      if 0 < s then
        let t := retryRun attempt rest (n + 1)
        (t.1, t.2.1 + 1, s :: t.2.2)
      else (.err rcode out, 1, [])

/-- The subprocess outcomes of one installFS invocation, one field per
external command (the two retried commands are indexed by attempt). -/
structure InstallFSEnv where
  link : Nat → CmdResult
  dasdfmt : CmdResult
  settle3390 : CmdResult
  fdasd : CmdResult
  fdiskDelete : CmdResult
  fdiskCreate : Nat → CmdResult
  settleFinal : CmdResult
  mkfs : Nat → CmdResult
  flushbufs : CmdResult
  detach : CmdResult

/-- A Python fault that escapes installFS uncaught. -/
inductive PyFault where
  | unboundLocalDevice
  deriving DecidableEq

/-- What installFS hands back when it returns normally: the results record
and how many times the flush and detach commands of the release step ran. -/
structure InstallFSOut where
  results : ResultRecord
  flushRuns : Nat
  detachRuns : Nat
  deriving DecidableEq

/-- The shared shape of installFS's try/except blocks: on clean exit the
results are untouched, a CalledProcessError replaces them by the 0415 record
with rs set to the exit status, any other exception by the 0421 record. -/
def stepResult (r : ResultRecord) (c : CmdResult) : ResultRecord :=
  match c with
  | .ok _ => r
  | .err rcode _ => { msg0415rec with rs := rcode }
  | .exc _ _ => msg0421rec

/-- installFS: link the disk (bounded retry), locate the device name behind
the Success: marker (10th whitespace token), format/partition per disk type,
settle, create the file system on the first partition (bounded retry), then
always release (flush buffers, offline and detach).  The source forces
diskAccessed = True before the release step, but builds the flush command
from the local variable `device`, which was never assigned when acquisition
or device-location failed: that reference raises an UnboundLocalError that
nothing catches. -/
def installFS (env : InstallFSEnv) (diskType fileSystem : String) :
    Except PyFault InstallFSOut :=
  let init : ResultRecord := ⟨0, 0, 0, 0, ""⟩
  -- mirror of the mkfs command-line selection (the outcome comes from env)
  let _mkfsTool :=
    if fileSystem = "swap" then "mkswap"
    else if fileSystem = "xfs" then "mkfs.xfs" else "mkfs"
  -- Acquire: link the virtual disk and bring it online, with bounded retry.
  let linkRes := (retryRun env.link installFSSchedule 0).1
  let r1 := stepResult init linkRes
  -- Locate the device name in the link output.
  let located : ResultRecord × Option String :=
    match linkRes with
    | .ok out =>
      match reGroupBetween out "Success:" "\n" with
      | some line =>
        if 9 < (pyWsSplit line).length then
          (init, some ("/dev/" ++ (pyWsSplit line).getD 9 ""))
        else (msg0416rec, none)
      | none => (msg0417rec, none)
    | _ => (r1, none)
  let r2 := located.1
  let dev0 := located.2
  -- Format with dasdfmt, settle, partition with fdasd (3390 tool chain).
  let r3 := if r2.overallRC = 0 ∧ diskType = "3390" then stepResult r2 env.dasdfmt else r2
  let r4 := if r3.overallRC = 0 ∧ diskType = "3390" then stepResult r3 env.settle3390 else r3
  let r5 := if r4.overallRC = 0 ∧ diskType = "3390" then stepResult r4 env.fdasd else r4
  -- Delete any existing partition, then create one (9336 tool chain); the
  -- create step retries on the bounded schedule.
  let r6 := if r5.overallRC = 0 ∧ diskType = "9336" then stepResult r5 env.fdiskDelete else r5
  let r7 :=
    if r6.overallRC = 0 ∧ diskType = "9336" then
      stepResult r6 (retryRun env.fdiskCreate installFSSchedule 0).1
    else r6
  -- Settle the devices before making the file system.
  let r8 := if r7.overallRC = 0 then stepResult r7 env.settleFinal else r7
  -- Create the file system on the first partition, with bounded retry.
  let fsStep : ResultRecord × Option String :=
    if r8.overallRC = 0 then
      (stepResult r8 (retryRun env.mkfs installFSSchedule 0).1,
       dev0.map (fun d => d ++ "1"))
    else (r8, dev0)
  let r9 := fsStep.1
  -- Release: diskAccessed is forced True; the flush command references the
  -- local `device`, unbound when no device name was ever located.
  match fsStep.2 with
  | none => .error .unboundLocalDevice
  | some _ =>
    -- flush buffers: any exception only logs a warning
    let _flushOutcome := env.flushbufs
    -- offline and detach: failure overrides the prior outcome
    let rB := stepResult r9 env.detach
    .ok ⟨rB, 1, 1⟩

/-! ## waitForOSState (OS-state poller) -/

/-- The trivial remote command used as the reachability probe. -/
def pingCmd : String := "echo 'ping'"

/-- One probe of the OS-state poller: the overallRC of running the echo over
IUCV against the given target on attempt i.  `env target i` is the
subprocess outcome of that invocation. -/
def osProbeRC (target : String) (env : String → Nat → ProcOutcome)
    (i : Nat) : Int :=
  (execCmdThruIUCV target pingCmd (env target i)).overallRC

/-- Whether a probe overallRC means the desired state was reached: success
matches 'up', failure matches 'down'. -/
def osMatched (desired : String) (orc : Int) : Bool :=
  if orc = 0 then desired == "up" else desired == "down"

/-- The for-loop of waitForOSState over i = 1..maxQueries (fuel counts the
remaining iterations): probe, stop as soon as the state matches, otherwise
sleep when i < maxQueries.  Returns (stateFnd, probe calls, sleeps, probe
targets in order). -/
def osPollGo (rhUserid desired : String) (env : String → Nat → ProcOutcome)
    (maxQ : Nat) : Nat → Nat → Bool × Nat × Nat × List String
  | 0, _ => (false, 0, 0, [])
  | fuel + 1, i =>
    if osMatched desired (osProbeRC rhUserid env i) then
      (true, 1, 0, [rhUserid])
    else
      let rest := osPollGo rhUserid desired env maxQ fuel (i + 1)
      (rest.1, rest.2.1 + 1,
       rest.2.2.1 + (if i < maxQ then 1 else 0),
       rhUserid :: rest.2.2.2)

/-- Everything waitForOSState produces: the results record, the number of
probe calls and sleeps, the IUCV target of each probe, and the operator
error line announced on timeout. -/
structure OSPollOut where
  results : ResultRecord
  calls : Nat
  sleeps : Nat
  targets : List String
  errLine : Option String
  deriving DecidableEq

/-- waitForOSState: poll for the OS to reach the desired state.  The probe
in the source runs execCmdThruIUCV(rh, rh.userid, strCmd) — the request
handle's own userid — while the userid argument is only interpolated into
log lines and the 0413 timeout message. -/
def waitForOSState (rhUserid userid desired : String)
    (env : String → Nat → ProcOutcome) (maxQueries sleepSecs : Nat) :
    OSPollOut :=
  let t := osPollGo rhUserid desired env maxQueries maxQueries 1
  if t.1 then
    ⟨⟨0, 0, 0, 0, ""⟩, t.2.1, t.2.2.1, t.2.2.2, none⟩
  else
    ⟨msg0413rec, t.2.1, t.2.2.1, t.2.2.2,
      some (render0413 userid desired (maxQueries * sleepSecs))⟩

/-! ## Concrete inputs used by claim theorems and witnesses -/

/-- A link-step output of the documented shape: the Success: line carries
the device name as its 10th whitespace token. -/
def goodLinkOut : String :=
  "linkdiskandbringonline maint start time: 2017-03-03-16:20:48.011\nSuccess: Userid MAINT vdev 193 linked at ad35 device name dasdh\nlinkdiskandbringonline exit time: 2017-03-03-16:20:52.150\n"

/-- An installFS environment whose disk-link acquisition fails on every
attempt while every other command would succeed. -/
def linkFailEnv : InstallFSEnv :=
  ⟨fun _ => .err 1 "HCPLNM108E dasd busy", .ok "", .ok "", .ok "", .ok "",
   fun _ => .ok "", .ok "", fun _ => .ok "", .ok "", .ok ""⟩

/-- An installFS environment where everything succeeds except the
filesystem-creation command, which fails on every attempt with the given
exit status and output. -/
def mkfsFailEnv (rcx : Int) (outx : String) : InstallFSEnv :=
  ⟨fun _ => .ok goodLinkOut, .ok "", .ok "", .ok "", .ok "",
   fun _ => .ok "", .ok "", fun _ => .err rcx outx, .ok "", .ok ""⟩

/-- An attempt function that fails twice, then succeeds. -/
def twoFailAttempt : Nat → CmdResult :=
  fun n => if n < 2 then .err 1 "busy" else .ok "done"

/-- A transport output whose return and reason codes decode to rc=8, rs=1
(the outcome disableEnableDisk converts to success for option -d). -/
def notKnownOut : String := "Return code 8, Reason code 1."

/-! ## Shared lemmas -/

/-- When the first k attempts of the retry loop fail with a
CalledProcessError, the first k scheduled delays are positive and attempt
k succeeds, the loop performs k+1 attempts, sleeps exactly the first k
delays in order, and ends in success. -/
theorem retryRun_failThenOk (attempt : Nat → CmdResult) (okOut : String) :
    ∀ (sched : List ℚ) (k base : Nat), k < sched.length →
    (∀ j, j < k → 0 < sched.getD j 0) →
    (∀ j, j < k → ∃ rc out, attempt (base + j) = .err rc out) →
    attempt (base + k) = .ok okOut →
    retryRun attempt sched base = (.ok okOut, k + 1, sched.take k)
  | [], k, base, hk, _, _, _ => absurd hk (by simp)
  | s :: rest, 0, base, _, _, _, hsucc => by
    have hs : attempt base = .ok okOut := hsucc
    simp [retryRun, hs]
  | s :: rest, k + 1, base, hk, hpos, hfail, hsucc => by
    obtain ⟨rc1, out1, h0⟩ := hfail 0 (Nat.succ_pos k)
    have h0b : attempt base = .err rc1 out1 := by simpa using h0
    have hs : 0 < s := by simpa using hpos 0 (Nat.succ_pos k)
    have ih := retryRun_failThenOk attempt okOut rest k (base + 1)
      (by simpa using Nat.lt_of_succ_lt_succ hk)
      (fun j hj => by simpa using hpos (j + 1) (Nat.succ_lt_succ hj))
      (fun j hj => by
        obtain ⟨rc2, out2, h2⟩ := hfail (j + 1) (Nat.succ_lt_succ hj)
        exact ⟨rc2, out2, by rw [show base + 1 + j = base + (j + 1) by omega]; exact h2⟩)
      (by rw [show base + 1 + k = base + (k + 1) by omega]; exact hsucc)
    simp [retryRun, h0b, hs, ih]

/-- When every attempt fails with the retryable codes and the option is not
-d, the disableEnableDisk loop walks its whole schedule and surfaces the
last observed failure. -/
theorem dedLoop_surface (userid vaddr option : String)
    (probe : Nat → ProcOutcome) (hopt : option ≠ "-d")
    (hnz : ∀ n, (execCmdThruIUCV userid (chccwdevCmd option vaddr)
      (probe n)).overallRC ≠ 0) :
    ∀ (sched : List ℚ) (last : ResultRecord) (n : Nat), sched ≠ [] →
      dedLoop userid vaddr option probe last sched n =
        (execCmdThruIUCV userid (chccwdevCmd option vaddr)
          (probe (n + sched.length - 1)), n + sched.length)
  | [], _, _, hne => absurd rfl hne
  | [s], last, n, _ => by
    rw [dedLoop, if_neg (hnz n),
      if_neg (fun hcon => hopt hcon.2.2.2), dedLoop]
    simp
  | s :: s2 :: rest, last, n, _ => by
    have ih := dedLoop_surface userid vaddr option probe hopt hnz (s2 :: rest)
      (execCmdThruIUCV userid (chccwdevCmd option vaddr) (probe n)) (n + 1)
      (by simp)
    rw [dedLoop, if_neg (hnz n), if_neg (fun hcon => hopt hcon.2.2.2), ih]
    have h1 : n + 1 + (s2 :: rest).length - 1 =
        n + (s :: s2 :: rest).length - 1 := by
      simp only [List.length_cons]
      omega
    have h2 : n + 1 + (s2 :: rest).length = n + (s :: s2 :: rest).length := by
      simp only [List.length_cons]
      omega
    rw [h1, h2]

/-- When the first header token is not an integer, or an integer outside
8/24/25, decodeHeader ends with overallRC 25 on every path (and returns
rather than raises when a payload line exists). -/
theorem decodeHeader_badToken1 (api strCmd : String) (codes : List String)
    (hd0 hd1 pay : String)
    (hlen : ¬ codes.length < 3)
    (hbad : pyToInt (codes.getD 0 "") = none ∨
      ∃ v, pyToInt (codes.getD 0 "") = some v ∧ ¬(v = 8 ∨ v = 24 ∨ v = 25)) :
    exOverallRC (decodeHeader api strCmd codes hd0 hd1 (some pay)) =
      some 25 := by
  rw [decodeHeader, if_neg hlen]
  simp only [List.getD_eq_getElem?_getD] at hbad
  rcases hbad with h0 | ⟨v, hv, hvr⟩
  · cases h1 : pyToInt (codes[1]?.getD "") <;>
      cases h2 : pyToInt (codes[2]?.getD "") <;>
        simp [h0, h1, h2, exOverallRC, msg0302rec, msg0303rec, msg0304rec]
  · cases h1 : pyToInt (codes[1]?.getD "") <;>
      cases h2 : pyToInt (codes[2]?.getD "") <;>
        simp [hv, hvr, h1, h2, exOverallRC, msg0302rec, msg0303rec,
          msg0304rec]

/-- Every probe the OS-state polling loop issues targets the same userid it
was started with. -/
theorem osPollGo_targets (rhU desired : String)
    (env : String → Nat → ProcOutcome) (maxQ : Nat) :
    ∀ (fuel i : Nat) (t : String),
      t ∈ (osPollGo rhU desired env maxQ fuel i).2.2.2 → t = rhU
  | 0, i, t, h => absurd h (by simp [osPollGo])
  | fuel + 1, i, t, h => by
    rw [osPollGo] at h
    by_cases hc : osMatched desired (osProbeRC rhU env i) = true
    · simp [hc] at h
      exact h
    · simp [hc] at h
      rcases h with h | h
      · exact h
      · exact osPollGo_targets rhU desired env maxQ fuel (i + 1) t h

/-! ## Claim theorems -/

/-- C1: for every command, userid and timeout, a process-level timeout or a
permission failure makes execCmdThruIUCV return the fixed operation-timed-out
outcome overallRC=3, rc=64, rs=408, regardless of which of the two underlying
exceptions fired (the timeout goes through catalog record 0501, the
permission error through the explicit assignments of the joint clause). -/
theorem execCmdThruIUCV_timeout_and_permission_fixed_codes
    (userid strCmd d1 d2 : String) :
    ((execCmdThruIUCV userid strCmd (.timeoutExp d1)).overallRC,
     (execCmdThruIUCV userid strCmd (.timeoutExp d1)).rc,
     (execCmdThruIUCV userid strCmd (.timeoutExp d1)).rs) = (3, 64, 408) ∧
    ((execCmdThruIUCV userid strCmd (.permErr d2)).overallRC,
     (execCmdThruIUCV userid strCmd (.permErr d2)).rc,
     (execCmdThruIUCV userid strCmd (.permErr d2)).rs) = (3, 64, 408) :=
  ⟨rfl, rfl⟩

/-- Instantiation of the C1 theorem at a concrete command. -/
theorem execCmdThruIUCV_timeout_and_permission_fixed_codes_witness :
    ((execCmdThruIUCV "USER1" "date" (.timeoutExp "timed out")).overallRC,
     (execCmdThruIUCV "USER1" "date" (.timeoutExp "timed out")).rc,
     (execCmdThruIUCV "USER1" "date" (.timeoutExp "timed out")).rs) =
      (3, 64, 408) ∧
    ((execCmdThruIUCV "USER1" "date" (.permErr "denied")).overallRC,
     (execCmdThruIUCV "USER1" "date" (.permErr "denied")).rc,
     (execCmdThruIUCV "USER1" "date" (.permErr "denied")).rs) =
      (3, 64, 408) :=
  execCmdThruIUCV_timeout_and_permission_fixed_codes "USER1" "date"
    "timed out" "denied"

/-- C2 fails on the code: invokeSMCLI masks logParms, but logParms = parms
merely aliases the caller's list, so a non-empty hideInLog rewrites the
executed argv as well — the subprocess receives "<hidden>" in place of the
flagged parameter and the executed command differs from the empty-hideInLog
run. -/
theorem invokeSMCLI_mask_alters_executed_argv :
    (invokeSMCLI "OP" "Image_Definition_Update_DM"
        ["-T", "USER1", "-k", "password=secret"] [3] 0 0 (.ok "h\np")).argv =
      ["sudo", "/opt/zthin/bin/smcli", "Image_Definition_Update_DM",
       "--addRCheader", "-T", "USER1", "-k", "<hidden>",
       "--timeout", "240"] ∧
    (invokeSMCLI "OP" "Image_Definition_Update_DM"
        ["-T", "USER1", "-k", "password=secret"] [] 0 0 (.ok "h\np")).argv =
      ["sudo", "/opt/zthin/bin/smcli", "Image_Definition_Update_DM",
       "--addRCheader", "-T", "USER1", "-k", "password=secret",
       "--timeout", "240"] ∧
    (invokeSMCLI "OP" "Image_Definition_Update_DM"
        ["-T", "USER1", "-k", "password=secret"] [3] 0 0 (.ok "h\np")).argv ≠
      (invokeSMCLI "OP" "Image_Definition_Update_DM"
        ["-T", "USER1", "-k", "password=secret"] [] 0 0 (.ok "h\np")).argv := by
  refine ⟨rfl, rfl, ?_⟩
  decide

/-- C3 fails on the code: when the disk-link acquisition fails on every
attempt so no device name was ever located, installFS does not return a
ResultRecord — the release step builds the flush-buffers command from the
unbound local `device` and the UnboundLocalError escapes to the caller. -/
theorem installFS_release_unbound_device_fault :
    installFS linkFailEnv "3390" "xfs" = .error .unboundLocalDevice := rfl

/-- C4: the failing header "8 4 12 (details) disk busy" decodes to
overallRC=8, rc=4, rs=12 (errno stays 0); "25 1 1007 (details) bad opt"
decodes to overallRC=25, rc=1, errno=1007 (rs stays 0); and for an
overallRC of 24 the third token is ignored and both rs and errno stay 0. -/
theorem invokeSMCLI_header_decode_examples :
    exCodes (invokeSMCLI "OP" "API1" [] [] 0 0
      (.cpe 1 "8 4 12 (details) disk busy\n")).result = some (8, 4, 12, 0) ∧
    exCodes (invokeSMCLI "OP" "API1" [] [] 0 0
      (.cpe 1 "25 1 1007 (details) bad opt\n")).result =
        some (25, 1, 0, 1007) ∧
    exCodes (invokeSMCLI "OP" "API1" [] [] 0 0
      (.cpe 1 "24 9 55 (details) ignored\n")).result = some (24, 9, 0, 0) :=
  ⟨rfl, rfl, rfl⟩

/-- C5: when the management-API call fails and the first header token does
not parse as an integer, or parses to a value outside 8/24/25, invokeSMCLI
returns (rather than raises, given the failing output carries a payload
after its header line) an internal-error outcome whose overallRC is 25 —
never a record carrying the out-of-range value.  The replacement record is
catalog entry 0302, modelled from the spec as carrying overallRC 25. -/
theorem invokeSMCLI_bad_overallRC_forced_internal
    (rhU api : String) (parms : List String) (hide : List Nat)
    (cfgL cfgG : Nat) (rcx : Int) (output l0 l1 : String)
    (hsplit : splitOnce output "\n" = [l0, l1])
    (hlen : 3 ≤ (pySplitOn ((splitOnce l0 "(details)").getD 0 "") " ").length)
    (hbad :
      pyToInt ((pySplitOn ((splitOnce l0 "(details)").getD 0 "") " ").getD 0 "")
          = none ∨
      ∃ v, pyToInt
          ((pySplitOn ((splitOnce l0 "(details)").getD 0 "") " ").getD 0 "")
          = some v ∧ ¬(v = 8 ∨ v = 24 ∨ v = 25)) :
    exOverallRC (invokeSMCLI rhU api parms hide cfgL cfgG
      (.cpe rcx output)).result = some 25 := by
  have hres : (invokeSMCLI rhU api parms hide cfgL cfgG (.cpe rcx output)).result
      = parseCPE api
        (strJoin " " (smcliBaseCmd api ++
          ((if hide.isEmpty then parms else maskParms parms hide) ++
            ["--timeout", toString (resolveTimeout api cfgL cfgG)]))) output := rfl
  rw [hres]
  generalize strJoin " " _ = strCmd
  have heq : parseCPE api strCmd output =
      decodeHeader api strCmd
        (pySplitOn ((splitOnce l0 "(details)").getD 0 "") " ")
        ((splitOnce l0 "(details)").getD 0 "")
        ((splitOnce l0 "(details)").getD 1 "") (some l1) := by
    rw [parseCPE, hsplit]
    rfl
  rw [heq]
  exact decodeHeader_badToken1 api strCmd _ _ _ l1 (Nat.not_lt.mpr hlen) hbad

/-- Instantiation of the C5 theorem at the failing output
"9 4 12 (details) x" followed by an empty payload line. -/
theorem invokeSMCLI_bad_overallRC_forced_internal_witness :
    exOverallRC (invokeSMCLI "OP" "API1" [] [] 0 0
      (.cpe 1 "9 4 12 (details) x\n")).result = some 25 :=
  invokeSMCLI_bad_overallRC_forced_internal "OP" "API1" [] [] 0 0 1
    "9 4 12 (details) x\n" "9 4 12 (details) x" "" (by decide) (by decide)
    (Or.inr ⟨9, by decide, by decide⟩)

/-- C6: for the retry schedule used by the disk-link-acquisition and
filesystem-creation steps and an attempt that fails exactly k < 7 times and
then succeeds, the loop performs exactly k+1 attempts, sleeps exactly the
first k scheduled delays in their listed order, and ends in success. -/
theorem retrySchedule_fail_then_succeed (k : Nat)
    (hk : k < installFSSchedule.length) (attempt : Nat → CmdResult)
    (okOut : String)
    (hfail : ∀ j, j < k → ∃ rc out, attempt j = .err rc out)
    (hsucc : attempt k = .ok okOut) :
    retryRun attempt installFSSchedule 0 =
      (.ok okOut, k + 1, installFSSchedule.take k) := by
  apply retryRun_failThenOk attempt okOut installFSSchedule k 0 hk
  · intro j hj
    have hlen : installFSSchedule.length = 7 := rfl
    have hj6 : j < 6 := by omega
    interval_cases j <;> decide
  · intro j hj
    simpa using hfail j hj
  · simpa using hsucc

/-- Instantiation of the C6 theorem at k = 2: two failures, then success,
with the first two delays (0.1 s and 0.2 s) slept in order. -/
theorem retrySchedule_fail_then_succeed_witness :
    retryRun twoFailAttempt installFSSchedule 0 =
      (.ok "done", 2 + 1, installFSSchedule.take 2) :=
  retrySchedule_fail_then_succeed 2 (by decide) twoFailAttempt "done"
    (fun j hj => ⟨1, "busy", by simp [twoFailAttempt, hj]⟩) (by decide)

/-- C7: with maxQueries = 3 and a probe whose state never matches, the
OS-state polling loop makes exactly 3 probe calls and exactly 2 sleeps
(never sleeping after the final attempt) and returns the fixed timeout
outcome whose announced message embeds maxQueries times the sleep
interval. -/
theorem waitForOSState_timeout_budget (rhU userid desired : String)
    (env : String → Nat → ProcOutcome) (sleepSecs : Nat)
    (h : ∀ i, osMatched desired (osProbeRC rhU env i) = false) :
    waitForOSState rhU userid desired env 3 sleepSecs =
      ⟨msg0413rec, 3, 2, [rhU, rhU, rhU],
        some (render0413 userid desired (3 * sleepSecs))⟩ := by
  simp [waitForOSState, osPollGo, h 1, h 2, h 3]

/-- Instantiation of the C7 theorem with a probe that always fails over the
transport while the desired state is 'up'. -/
theorem waitForOSState_timeout_budget_witness :
    waitForOSState "OPER" "GUEST" "up" (fun _ _ => .cpe 1 "") 3 5 =
      ⟨msg0413rec, 3, 2, ["OPER", "OPER", "OPER"],
        some (render0413 "GUEST" "up" (3 * 5))⟩ := by
  apply waitForOSState_timeout_budget
  intro i
  show osMatched "up"
    (execCmdThruIUCV "OPER" pingCmd (.cpe 1 "")).overallRC = false
  decide

set_option maxRecDepth 8192 in
/-- C8: when acquisition and the format/partition steps succeed but the
filesystem-creation step fails on every scheduled attempt, the release step
(flush buffers, then offline-and-detach) still executes exactly once, and —
the detach command itself succeeding — the returned record is the
filesystem-creation failure (catalog record 0415 with rs holding the exit
status re-raised at the sentinel attempt), not a success overwritten by the
release step. -/
theorem installFS_mkfs_failure_preserved (env : InstallFSEnv)
    (fs o1 o2 o3 o4 o5 : String) (rcM : Nat → Int) (outM : Nat → String)
    (hlink : env.link 0 = .ok goodLinkOut)
    (hfmt : env.dasdfmt = .ok o1)
    (hsettle : env.settle3390 = .ok o2)
    (hfdasd : env.fdasd = .ok o3)
    (hsf : env.settleFinal = .ok o4)
    (hmk : ∀ n, env.mkfs n = .err (rcM n) (outM n))
    (hdet : env.detach = .ok o5) :
    installFS env "3390" fs =
      .ok ⟨{ msg0415rec with rs := rcM 6 }, 1, 1⟩ := by
  have p1 : (0:ℚ) < mkRat 1 10 := by decide
  have p2 : (0:ℚ) < mkRat 1 5 := by decide
  have p3 : (0:ℚ) < mkRat 3 10 := by decide
  have p4 : (0:ℚ) < mkRat 1 2 := by decide
  have p5 : (0:ℚ) < 1 := by decide
  have p6 : (0:ℚ) < 2 := by decide
  have hlinkRun : (retryRun env.link installFSSchedule 0).1 = .ok goodLinkOut := by
    simp [installFSSchedule, retryRun, hlink]
  have hmkRun : (retryRun env.mkfs installFSSchedule 0).1 =
      .err (rcM 6) (outM 6) := by
    simp [installFSSchedule, retryRun, hmk 0, hmk 1, hmk 2, hmk 3, hmk 4,
      hmk 5, hmk 6, p1, p2, p3, p4, p5, p6]
    rw [if_neg (by decide)]
  have hloc : reGroupBetween goodLinkOut "Success:" "\n" =
      some " Userid MAINT vdev 193 linked at ad35 device name dasdh" := by
    decide
  have hparts :
      pyWsSplit " Userid MAINT vdev 193 linked at ad35 device name dasdh" =
        ["Userid", "MAINT", "vdev", "193", "linked", "at", "ad35", "device",
         "name", "dasdh"] := by
    decide
  simp [installFS, hlinkRun, hmkRun, hloc, hparts, hfmt, hsettle, hfdasd,
    hsf, hdet, stepResult]

/-- Instantiation of the C8 theorem on a concrete environment whose mkfs
fails with exit status 6 on every attempt. -/
theorem installFS_mkfs_failure_preserved_witness :
    installFS (mkfsFailEnv 6 "mkfs: device busy") "3390" "xfs" =
      .ok ⟨{ msg0415rec with rs := 6 }, 1, 1⟩ :=
  installFS_mkfs_failure_preserved (mkfsFailEnv 6 "mkfs: device busy")
    "xfs" "" "" "" "" "" (fun _ => 6) (fun _ => "mkfs: device busy")
    rfl rfl rfl rfl rfl (fun _ => rfl) rfl

/-- C9: when the disable command reports overallRC=2, rc=8, rs=1 (Linux does
not know about the disk) on its first attempt and the option is -d, the loop
returns immediately — one invocation — with the fixed success record; with
option -e the conversion never happens: the same persistent outcome is
surfaced unchanged after all 15 scheduled attempts. -/
theorem disableEnableDisk_notKnown_conversion :
    (∀ (userid vaddr : String) (probe : Nat → ProcOutcome),
      (execCmdThruIUCV userid (chccwdevCmd "-d" vaddr)
        (probe 0)).overallRC = 2 →
      (execCmdThruIUCV userid (chccwdevCmd "-d" vaddr) (probe 0)).rc = 8 →
      (execCmdThruIUCV userid (chccwdevCmd "-d" vaddr) (probe 0)).rs = 1 →
      disableEnableDisk userid vaddr "-d" probe = (⟨0, 0, 0, 0, ""⟩, 1)) ∧
    (∀ (userid vaddr : String) (probe : Nat → ProcOutcome),
      (∀ n, (execCmdThruIUCV userid (chccwdevCmd "-e" vaddr)
          (probe n)).overallRC = 2 ∧
        (execCmdThruIUCV userid (chccwdevCmd "-e" vaddr) (probe n)).rc = 8 ∧
        (execCmdThruIUCV userid (chccwdevCmd "-e" vaddr) (probe n)).rs = 1) →
      disableEnableDisk userid vaddr "-e" probe =
        (execCmdThruIUCV userid (chccwdevCmd "-e" vaddr) (probe 14), 15)) := by
  constructor
  · intro userid vaddr probe h1 h2 h3
    rw [disableEnableDisk, dedSchedule, dedLoop,
      if_neg (by rw [h1]; decide), if_pos ⟨h1, h2, h3, rfl⟩]
  · intro userid vaddr probe h
    have hnz : ∀ n, (execCmdThruIUCV userid (chccwdevCmd "-e" vaddr)
        (probe n)).overallRC ≠ 0 := fun n => by
      rw [(h n).1]
      decide
    have hs := dedLoop_surface userid vaddr "-e" probe (by decide) hnz
      dedSchedule ⟨0, 0, 0, 0, ""⟩ 0 (by decide)
    rw [disableEnableDisk, hs]
    rfl

/-- Instantiation of the C9 theorem with a transport output decoding to
rc=8, rs=1 on every attempt. -/
theorem disableEnableDisk_notKnown_conversion_witness :
    disableEnableDisk "USER1" "0100" "-d" (fun _ => .cpe 8 notKnownOut) =
      (⟨0, 0, 0, 0, ""⟩, 1) ∧
    disableEnableDisk "USER1" "0100" "-e" (fun _ => .cpe 8 notKnownOut) =
      (execCmdThruIUCV "USER1" (chccwdevCmd "-e" "0100")
        (.cpe 8 notKnownOut), 15) := by
  constructor
  · apply disableEnableDisk_notKnown_conversion.1 "USER1" "0100"
      (fun _ => .cpe 8 notKnownOut)
    · show (execCmdThruIUCV "USER1" (chccwdevCmd "-d" "0100")
        (.cpe 8 notKnownOut)).overallRC = 2
      decide
    · show (execCmdThruIUCV "USER1" (chccwdevCmd "-d" "0100")
        (.cpe 8 notKnownOut)).rc = 8
      decide
    · show (execCmdThruIUCV "USER1" (chccwdevCmd "-d" "0100")
        (.cpe 8 notKnownOut)).rs = 1
      decide
  · apply disableEnableDisk_notKnown_conversion.2 "USER1" "0100"
      (fun _ => .cpe 8 notKnownOut)
    intro n
    refine ⟨?_, ?_, ?_⟩
    · show (execCmdThruIUCV "USER1" (chccwdevCmd "-e" "0100")
        (.cpe 8 notKnownOut)).overallRC = 2
      decide
    · show (execCmdThruIUCV "USER1" (chccwdevCmd "-e" "0100")
        (.cpe 8 notKnownOut)).rc = 8
      decide
    · show (execCmdThruIUCV "USER1" (chccwdevCmd "-e" "0100")
        (.cpe 8 notKnownOut)).rs = 1
      decide

/-- C10: the reachability probe of waitForOSState is issued against the
request handle's own userid on every call, and the userid argument
influences neither the probes nor the returned record nor the loop counts —
only the announced timeout message (and log lines) mention it. -/
theorem waitForOSState_probe_targets_rh_userid (rhU u1 u2 desired : String)
    (env : String → Nat → ProcOutcome) (maxQ sleepSecs : Nat) :
    (waitForOSState rhU u1 desired env maxQ sleepSecs).results =
      (waitForOSState rhU u2 desired env maxQ sleepSecs).results ∧
    (waitForOSState rhU u1 desired env maxQ sleepSecs).calls =
      (waitForOSState rhU u2 desired env maxQ sleepSecs).calls ∧
    (waitForOSState rhU u1 desired env maxQ sleepSecs).sleeps =
      (waitForOSState rhU u2 desired env maxQ sleepSecs).sleeps ∧
    (waitForOSState rhU u1 desired env maxQ sleepSecs).targets =
      (waitForOSState rhU u2 desired env maxQ sleepSecs).targets ∧
    ∀ t ∈ (waitForOSState rhU u1 desired env maxQ sleepSecs).targets,
      t = rhU := by
  have htg : ∀ t ∈ (waitForOSState rhU u1 desired env maxQ sleepSecs).targets,
      t = rhU := by
    intro t ht
    apply osPollGo_targets rhU desired env maxQ maxQ 1 t
    by_cases hf : (osPollGo rhU desired env maxQ maxQ 1).1 = true <;>
      simpa [waitForOSState, hf] using ht
  by_cases hf : (osPollGo rhU desired env maxQ maxQ 1).1 = true
  · exact ⟨by simp [waitForOSState, hf], by simp [waitForOSState, hf],
      by simp [waitForOSState, hf], by simp [waitForOSState, hf], htg⟩
  · exact ⟨by simp [waitForOSState, hf], by simp [waitForOSState, hf],
      by simp [waitForOSState, hf], by simp [waitForOSState, hf], htg⟩

/-- Instantiation of the C10 theorem at two different userid arguments over
the same request handle and probe environment. -/
theorem waitForOSState_probe_targets_rh_userid_witness :
    (waitForOSState "OPER" "U1" "up" (fun _ _ => ProcOutcome.cpe 1 "")
        3 0).results =
      (waitForOSState "OPER" "U2" "up" (fun _ _ => ProcOutcome.cpe 1 "")
        3 0).results ∧
    (waitForOSState "OPER" "U1" "up" (fun _ _ => ProcOutcome.cpe 1 "")
        3 0).targets =
      (waitForOSState "OPER" "U2" "up" (fun _ _ => ProcOutcome.cpe 1 "")
        3 0).targets :=
  ⟨(waitForOSState_probe_targets_rh_userid "OPER" "U1" "U2" "up"
      (fun _ _ => ProcOutcome.cpe 1 "") 3 0).1,
   (waitForOSState_probe_targets_rh_userid "OPER" "U1" "U2" "up"
      (fun _ _ => ProcOutcome.cpe 1 "") 3 0).2.2.2.1⟩

end VMUtils
